import Mathlib

/-!
Shallow embedding of the UpRock Verify VS Code extension client
(src/api/client.js, src/views/sidebarProvider.js, src/views/resultsPanel.js,
src/commands/batch.js, src/constants.js), together with theorems settling
the claims about its specification.  Each definition translates the named
source function; JavaScript optional fields become Option, numbers become
Int or Rat, and asynchronous calls become explicit outcome arguments of
type Except.
-/

set_option autoImplicit false

namespace UpRock

/-- Scores object of one region as delivered by the server and read by
sidebarProvider.js (fields state, reachability, usability; each may be
absent). -/
structure Scores where
  state : Option String
  reachability : Option Int
  usability : Option Int
  deriving DecidableEq, Repr

/-- One region entry of a job snapshot, with the fields that
sidebarProvider.js showJobResults reads. -/
structure RegionResult where
  continent : String
  continentName : Option String
  status : String
  scores : Option Scores
  state : Option String
  httpStatus : Option Int
  responseTime : Option Int
  error : Option String
  screenshotUrl : Option String
  deriving DecidableEq, Repr

/-- The seven display buckets of the per-continent card in showJobResults
(sidebarProvider.js lines 824-849), in source order: the status icons
for perfect, good, degraded, down, failed, timeout and pending. -/
inductive CardClass where
  | perfect
  | good
  | degraded
  | down
  | failed
  | timeout
  | pending
  deriving DecidableEq, Repr

/-- The state string chosen by showJobResults for a continent card:
the scores object label, else the top-level label, else the region
status (sidebarProvider.js line 817, the chain of JavaScript or). -/
def displayState (r : RegionResult) : String :=
  ((r.scores.bind Scores.state).orElse fun _ => r.state).getD r.status

/-- Per-continent card classification of showJobResults
(sidebarProvider.js lines 824-849).  The first branch applies to a
completed region whose reachability and usability are both defined. -/
def cardClassOf (r : RegionResult) : CardClass :=
  let state := displayState r
  let reachability := r.scores.bind Scores.reachability
  let usability := r.scores.bind Scores.usability
  let hasScores := reachability.isSome && usability.isSome
  if r.status = "completed" ∧ hasScores then
    let re := reachability.getD 0
    let us := usability.getD 0
    if state = "perfect" ∨ (re ≥ 100 ∧ us ≥ 91) then CardClass.perfect
    else if state = "good" ∨ (re ≥ 100 ∧ us ≥ 76) then CardClass.good
    else if state = "degraded" then CardClass.degraded
    else CardClass.down
  else if r.status = "failed" ∨ r.error.isSome then CardClass.failed
  else if r.status = "timeout" then CardClass.timeout
  else CardClass.pending

/-- A completed region carrying scores but no server state label,
neither on the scores object nor at top level. -/
def regionNoLabel (re us : Int) : RegionResult :=
  { continent := "NA", continentName := none, status := "completed",
    scores := some { state := none, reachability := some re, usability := some us },
    state := none, httpStatus := some 200, responseTime := some 120,
    error := none, screenshotUrl := none }

/-- C2: for a completed region with no server state label, the derived
card bucket at the classification boundaries is perfect at
reachability 100 and usability 91 and good at usability 90, as claimed;
but at usability 75 the otherwise branch of the code yields the red
down bucket, not degraded as the claim and the README state table say. -/
theorem cardClass_boundaries_code :
    cardClassOf (regionNoLabel 100 91) = CardClass.perfect ∧
    cardClassOf (regionNoLabel 100 90) = CardClass.good ∧
    cardClassOf (regionNoLabel 100 75) = CardClass.down := by
  decide

/-- A completed region scoring reachability 55 and usability 95 with no
server state label, with every field the classifier does not consult
left arbitrary. -/
def regionLowReach (cont : String) (cname : Option String)
    (hs rt : Option Int) (err scr : Option String) : RegionResult :=
  { continent := cont, continentName := cname, status := "completed",
    scores := some { state := none, reachability := some 55, usability := some 95 },
    state := none, httpStatus := hs, responseTime := rt,
    error := err, screenshotUrl := scr }

/-- C3: every completed region with reachability 55 and usability 95 and
no server state label is classified into the down bucket, whatever its
other fields are; and down is distinct from perfect, so the down
outcome takes precedence over the perfect rule. -/
theorem cardClass_precedence_down (cont : String) (cname : Option String)
    (hs rt : Option Int) (err scr : Option String) :
    cardClassOf (regionLowReach cont cname hs rt err scr) = CardClass.down ∧
    CardClass.down ≠ CardClass.perfect :=
  ⟨rfl, by decide⟩

/-- One entry of WEB_VITALS_THRESHOLDS (src/constants.js lines 6-37). -/
structure VitalThreshold where
  good : ℚ
  poor : ℚ
  unit : String
  label : String
  deriving DecidableEq, Repr

/-- constants.js: thresholds for LCP. -/
def lcpThreshold : VitalThreshold :=
  { good := 2500, poor := 4000, unit := "ms", label := "LCP (Largest Contentful Paint)" }

/-- constants.js: thresholds for CLS. -/
def clsThreshold : VitalThreshold :=
  { good := 1/10, poor := 1/4, unit := "", label := "CLS (Cumulative Layout Shift)" }

/-- constants.js: thresholds for TTFB. -/
def ttfbThreshold : VitalThreshold :=
  { good := 800, poor := 1800, unit := "ms", label := "TTFB (Time to First Byte)" }

/-- constants.js: thresholds for FCP. -/
def fcpThreshold : VitalThreshold :=
  { good := 1800, poor := 3000, unit := "ms", label := "FCP (First Contentful Paint)" }

/-- constants.js: thresholds for TTI. -/
def ttiThreshold : VitalThreshold :=
  { good := 3800, poor := 7300, unit := "ms", label := "TTI (Time to Interactive)" }

/-- getVitalRating (src/views/resultsPanel.js lines 378-382). -/
def getVitalRating (value : ℚ) (threshold : VitalThreshold) : String :=
  if value ≤ threshold.good then "good"
  else if value ≤ threshold.poor then "needs-improvement"
  else "poor"

/-- C6: for thresholds with good below poor, the rating is good when the
value is at most good, needs-improvement when it lies strictly between
good and poor inclusive of poor, and poor above poor; in particular on
the LCP thresholds, 2500 rates good, 2501 needs-improvement and 4001
poor. -/
theorem vitalRating_spec (value : ℚ) (t : VitalThreshold) (h : t.good ≤ t.poor) :
    ((value ≤ t.good → getVitalRating value t = "good") ∧
     (t.good < value → value ≤ t.poor → getVitalRating value t = "needs-improvement") ∧
     (t.poor < value → getVitalRating value t = "poor")) ∧
    (getVitalRating 2500 lcpThreshold = "good" ∧
     getVitalRating 2501 lcpThreshold = "needs-improvement" ∧
     getVitalRating 4001 lcpThreshold = "poor") := by
  refine ⟨⟨?_, ?_, ?_⟩, ?_, ?_, ?_⟩
  · intro hv
    simp [getVitalRating, hv]
  · intro h1 h2
    simp [getVitalRating, not_le.mpr h1, h2]
  · intro h1
    simp [getVitalRating, not_le.mpr h1, not_le.mpr (lt_of_le_of_lt h h1)]
  · norm_num [getVitalRating, lcpThreshold]
  · norm_num [getVitalRating, lcpThreshold]
  · norm_num [getVitalRating, lcpThreshold]

/-- Witness for C6: the LCP thresholds satisfy the hypothesis and the
value 2500 rates good. -/
theorem vitalRating_spec_witness :
    lcpThreshold.good ≤ lcpThreshold.poor ∧ getVitalRating 2500 lcpThreshold = "good" :=
  ⟨by norm_num [lcpThreshold],
   (vitalRating_spec 2500 lcpThreshold (by norm_num [lcpThreshold])).2.1⟩

/-- Rounding as JavaScript Math.round performs it on a rational value:
the floor of the value plus one half. -/
def jsRound (q : ℚ) : Int := ⌊q + 1 / 2⌋

/-- The summary object optionally attached to a job snapshot. -/
structure Summary where
  avgReachability : Option Int
  avgUsability : Option Int
  overallState : Option String
  completedContinents : Option Int
  totalContinents : Option Int
  deriving DecidableEq, Repr

/-- Truthiness of an optional integer under JavaScript coercion: absent
and zero are falsy. -/
def truthyInt : Option Int → Bool
  | none => false
  | some n => n != 0

/-- The completedResults filter of showJobResults (sidebarProvider.js
line 791): a result counts if its status is completed, or it carries a
scores object, or a truthy httpStatus. -/
def isCompletedLike (r : RegionResult) : Bool :=
  (r.status == "completed") || r.scores.isSome || truthyInt r.httpStatus

/-- The reachability contribution of one result in the client-side
average (sidebarProvider.js line 797): the scores reachability with the
JavaScript or-zero default, so an absent scores object or an absent
score contributes zero. -/
def reachOrZero (r : RegionResult) : Int :=
  match r.scores with
  | none => 0
  | some s => s.reachability.getD 0

/-- Client-side overall average reachability of showJobResults
(sidebarProvider.js lines 788-798): the server summary value when it is
present, otherwise the rounded mean of the or-zero reachability over
all completedResults. -/
def avgReachabilityOf (summary : Option Summary) (results : List RegionResult) : Int :=
  let completedResults := results.filter isCompletedLike
  match summary.bind Summary.avgReachability with
  | some v => v
  | none =>
      jsRound ((((completedResults.map reachOrZero).foldl (fun a b => a + b) 0 : ℤ) : ℚ) /
        (completedResults.length : ℚ))

/-- A completed region whose reachability score is 100. -/
def regionScore100 : RegionResult :=
  { continent := "NA", continentName := none, status := "completed",
    scores := some { state := none, reachability := some 100, usability := none },
    state := none, httpStatus := some 200, responseTime := some 100,
    error := none, screenshotUrl := none }

/-- A completed region with no scores object at all. -/
def regionScoreAbsent : RegionResult :=
  { continent := "EU", continentName := none, status := "completed",
    scores := none, state := none, httpStatus := some 200, responseTime := some 100,
    error := none, screenshotUrl := none }

/-- C1 counterexample: with no server summary, the client average over
the two completed regions with reachability 100 and with the score
absent is 50, not 100: the score-less region is counted as a zero. -/
theorem avgReachability_absent_counted :
    avgReachabilityOf none [regionScore100, regionScoreAbsent] = 50 ∧
    avgReachabilityOf none [regionScore100, regionScoreAbsent] ≠ 100 := by
  have h : avgReachabilityOf none [regionScore100, regionScoreAbsent] = 50 := by
    simp only [avgReachabilityOf, Option.none_bind]
    norm_num [regionScore100, regionScoreAbsent, isCompletedLike, truthyInt, reachOrZero,
      List.filter, List.foldl, jsRound]
  exact ⟨h, by rw [h]; norm_num⟩

/-- Sum of the or-zero reachability over the completedResults of a
list, the numerator of the client-side average. -/
def sumReach (results : List RegionResult) : Int :=
  ((results.filter isCompletedLike).map reachOrZero).foldl (fun a b => a + b) 0

/-- Number of completedResults of a list, the denominator of the
client-side average. -/
def completedLikeCount (results : List RegionResult) : Nat :=
  (results.filter isCompletedLike).length

/-- C1 amended: with no server summary, appending a completed region
with no score leaves the numerator of the client average unchanged but
enlarges the denominator by one: a score-less completed region is
treated as a zero sample, not excluded. -/
theorem avgReachability_zero_fill (rs : List RegionResult) :
    avgReachabilityOf none (rs ++ [regionScoreAbsent]) =
      jsRound ((sumReach rs : ℚ) / ((completedLikeCount rs : ℚ) + 1)) := by
  have hfil : (rs ++ [regionScoreAbsent]).filter isCompletedLike
      = rs.filter isCompletedLike ++ [regionScoreAbsent] := by
    rw [List.filter_append]
    norm_num [isCompletedLike, regionScoreAbsent, truthyInt]
  have hsum : ((rs.filter isCompletedLike ++ [regionScoreAbsent]).map reachOrZero).foldl
      (fun a b => a + b) 0 = sumReach rs := by
    simp [sumReach, List.foldl_append, reachOrZero, regionScoreAbsent]
  simp only [avgReachabilityOf, Option.none_bind, hfil, hsum]
  simp only [List.length_append, List.length_singleton, completedLikeCount]
  congr 1
  push_cast
  ring

/-- Pagination metadata of a history page as kept by the webview. -/
structure Pagination where
  page : Int
  totalPages : Int
  total : Int
  hasNext : Bool
  hasPrev : Bool
  deriving DecidableEq, Repr

/-- The webview state read by loadHistoryPage: the caller-owned page
cursor and the pagination of the last received history page. -/
structure HistoryView where
  currentHistoryPage : Int
  historyPagination : Option Pagination
  deriving DecidableEq, Repr

/-- The argument of the loadHistoryPage action. -/
inductive Direction where
  | next
  | prev
  deriving DecidableEq, Repr

/-- loadHistoryPage (sidebarProvider.js lines 526-533): the guarded
cursor update followed by the unconditional getHistory post.  The
second component lists the page numbers of the getHistory messages the
call posts. -/
def loadHistoryPage (st : HistoryView) (dir : Direction) : HistoryView × List Int :=
  let page :=
    if dir = Direction.next ∧ (st.historyPagination.map Pagination.hasNext).getD false then
      st.currentHistoryPage + 1
    else if dir = Direction.prev ∧ (st.historyPagination.map Pagination.hasPrev).getD false then
      st.currentHistoryPage - 1
    else
      st.currentHistoryPage
  ({ st with currentHistoryPage := page }, [page])

/-- The optional-chained hasNext of the stored pagination, absent being
falsy. -/
def hasNextOf (st : HistoryView) : Bool :=
  (st.historyPagination.map Pagination.hasNext).getD false

/-- The optional-chained hasPrev of the stored pagination, absent being
falsy. -/
def hasPrevOf (st : HistoryView) : Bool :=
  (st.historyPagination.map Pagination.hasPrev).getD false

/-- A view on page 1 whose last received pagination forbids both
moves. -/
def viewNoMoves : HistoryView :=
  { currentHistoryPage := 1,
    historyPagination :=
      some { page := 1, totalPages := 1, total := 3, hasNext := false, hasPrev := false } }

/-- C4 counterexample: on a state whose last page reports no next page,
the next action is not a no-op: a getHistory message is still posted,
for the unchanged current page. -/
theorem loadHistoryPage_next_refetches :
    hasNextOf viewNoMoves = false ∧ (loadHistoryPage viewNoMoves Direction.next).2 ≠ [] := by
  constructor <;> decide

/-- C4 amended: when the last known page forbids next, the next action
leaves the cursor unchanged but still posts one getHistory request for
the current page; likewise for prev; and the cursor only moves under a
next action when the last known hasNext permitted it. -/
theorem loadHistoryPage_guard (st : HistoryView) :
    (hasNextOf st = false →
      (loadHistoryPage st Direction.next).1.currentHistoryPage = st.currentHistoryPage ∧
      (loadHistoryPage st Direction.next).2 = [st.currentHistoryPage]) ∧
    (hasPrevOf st = false →
      (loadHistoryPage st Direction.prev).1.currentHistoryPage = st.currentHistoryPage ∧
      (loadHistoryPage st Direction.prev).2 = [st.currentHistoryPage]) ∧
    ((loadHistoryPage st Direction.next).1.currentHistoryPage ≠ st.currentHistoryPage →
      hasNextOf st = true) := by
  refine ⟨?_, ?_, ?_⟩
  · intro h
    rw [hasNextOf] at h
    simp [loadHistoryPage, h]
  · intro h
    rw [hasPrevOf] at h
    simp [loadHistoryPage, h]
  · intro hmoved
    cases hx : hasNextOf st with
    | true => rfl
    | false =>
      rw [hasNextOf] at hx
      exact absurd (by simp [loadHistoryPage, hx]) hmoved

/-- Witness for C4 amended at the concrete no-moves view. -/
theorem loadHistoryPage_guard_witness :
    hasNextOf viewNoMoves = false ∧
    (loadHistoryPage viewNoMoves Direction.next).1.currentHistoryPage =
      viewNoMoves.currentHistoryPage :=
  ⟨by decide, ((loadHistoryPage_guard viewNoMoves).1 (by decide)).1⟩

/-- The success envelope of an API response as read by the sidebar
handlers: the success flag and the optional error string. -/
structure ApiResult where
  success : Bool
  error : Option String
  deriving DecidableEq, Repr

/-- An API call issued by the history handler, with its arguments. -/
inductive ApiCall where
  | history (limit page : Int)
  | scans (limit offset : Int)
  deriving DecidableEq, Repr

/-- The message the history handler posts back to the webview. -/
inductive HistoryOutcome where
  | page
  | errorMsg (message : String)
  deriving DecidableEq, Repr

/-- _handleGetHistory (sidebarProvider.js lines 201-225), with the two
transport outcomes passed explicitly.  The handler first calls the
filtered history endpoint with limit 10; when that call raises, it
calls the legacy scans endpoint with limit 10 and offset (page-1)*10;
an unsuccessful envelope or a raised legacy error becomes an error
post.  The first component lists the API calls issued, in order. -/
def handleGetHistory (page : Int) (histOutcome scansOutcome : Except String ApiResult) :
    List ApiCall × HistoryOutcome :=
  match histOutcome with
  | Except.ok r =>
      ([ApiCall.history 10 page],
        if r.success then HistoryOutcome.page
        else HistoryOutcome.errorMsg ("History: " ++ r.error.getD "Failed to get history"))
  | Except.error _ =>
      match scansOutcome with
      | Except.ok r =>
          ([ApiCall.history 10 page, ApiCall.scans 10 ((page - 1) * 10)],
            if r.success then HistoryOutcome.page
            else HistoryOutcome.errorMsg ("History: " ++ r.error.getD "Failed to get history"))
      | Except.error e =>
          ([ApiCall.history 10 page, ApiCall.scans 10 ((page - 1) * 10)],
            HistoryOutcome.errorMsg ("History: " ++ e))

/-- Whether an API outcome failed: the call raised, or its envelope
reports success false. -/
def apiFailed : Except String ApiResult → Bool
  | Except.ok r => !r.success
  | Except.error _ => true

/-- Whether the posted history message is an error post. -/
def isErrorOutcome : HistoryOutcome → Bool
  | HistoryOutcome.page => false
  | HistoryOutcome.errorMsg _ => true

/-- C5: whenever the filtered history endpoint raises, the handler calls
the legacy scans endpoint exactly once, with limit 10 and offset
(page-1)*10, and the outcome is an error exactly when that legacy call
also fails, that is raises or reports an unsuccessful envelope. -/
theorem handleGetHistory_fallback (page : Int) (e : String)
    (scansOutcome : Except String ApiResult) :
    (handleGetHistory page (Except.error e) scansOutcome).1 =
      [ApiCall.history 10 page, ApiCall.scans 10 ((page - 1) * 10)] ∧
    isErrorOutcome (handleGetHistory page (Except.error e) scansOutcome).2 =
      apiFailed scansOutcome := by
  cases scansOutcome with
  | ok r =>
    cases hr : r.success <;>
      simp [handleGetHistory, apiFailed, isErrorOutcome, hr]
  | error e2 => simp [handleGetHistory, apiFailed, isErrorOutcome]

/-- The outgoing HTTP request assembled by ApiClient.request
(src/api/client.js lines 66-108): method, full URL, API key header,
and the optional body. -/
structure OutgoingRequest where
  method : String
  url : String
  apiKeyHeader : String
  body : Option String
  deriving DecidableEq, Repr

/-- ApiClient.request (src/api/client.js lines 66-108) up to the wire:
with no API key configured the call raises the configuration error;
otherwise the axios config is built, attaching the body only when one
was supplied and the method is not GET (line 102). -/
def request (apiKey : Option String) (baseUrl method endpoint : String)
    (data : Option String) : Except String OutgoingRequest :=
  match apiKey with
  | none =>
      Except.error "API key not configured. Run \"UpRock Verify: Set API Key\" to configure."
  | some key =>
      Except.ok
        { method := method, url := baseUrl ++ endpoint, apiKeyHeader := key,
          body := if data.isSome ∧ method ≠ "GET" then data else none }

/-- The body carried by a built request, none when the build raised. -/
def sentBody : Except String OutgoingRequest → Option String
  | Except.ok r => r.body
  | Except.error _ => none

/-- C7: a GET request never carries a body, whatever body argument the
caller supplied and whether or not a key is configured. -/
theorem request_get_no_body (apiKey : Option String) (baseUrl endpoint : String)
    (data : Option String) :
    sentBody (request apiKey baseUrl "GET" endpoint data) = none := by
  cases apiKey with
  | none => rfl
  | some key => simp [request, sentBody]

/-- Whitespace test for the string helpers below, matching what the
JavaScript trim removes for the inputs at issue. -/
def isSpaceChar (c : Char) : Bool := c = ' ' || c = '\t' || c = '\n' || c = '\r'

/-- JavaScript trim on a character list. -/
def trimChars (l : List Char) : List Char :=
  ((l.dropWhile isSpaceChar).reverse.dropWhile isSpaceChar).reverse

/-- JavaScript trim on a string. -/
def jsTrim (s : String) : String := String.mk (trimChars s.data)

/-- Auxiliary splitter for splitComma, accumulating the current piece. -/
def splitCommaAux : List Char → List Char → List String
  | [], acc => [String.mk acc.reverse]
  | c :: cs, acc =>
      if c = ',' then String.mk acc.reverse :: splitCommaAux cs []
      else splitCommaAux cs (c :: acc)

/-- JavaScript split on a comma, empty pieces preserved. -/
def splitComma (s : String) : List String := splitCommaAux s.data []

/-- Auxiliary list-level test behind jsStartsWith. -/
def leadsWith : List Char → List Char → Bool
  | [], _ => true
  | _ :: _, [] => false
  | a :: as, b :: bs => a = b && leadsWith as bs

/-- JavaScript startsWith. -/
def jsStartsWith (s p : String) : Bool := leadsWith p.data s.data

/-- The url normalization both passes of the manual batch command apply:
prepend the https scheme unless the string starts with http
(src/commands/batch.js lines 23 and 36). -/
def prependScheme (u : String) : String :=
  if jsStartsWith u "http" then u else "https://" ++ u

/-- validateInput of the manual batch command (src/commands/batch.js
lines 17-29), parametrized by the platform URL parser; none means the
input is accepted.  The size check runs on the comma pieces after
trimming and dropping blanks. -/
def validateBatchInput (urlValid : String → Bool) (value : String) : Option String :=
  if value = "" then some "At least one URL is required"
  else
    let urls := ((splitComma value).map jsTrim).filter (fun s => s != "")
    if urls.length > 10 then some "Maximum 10 URLs allowed"
    else
      (urls.find? fun u => !(urlValid (prependScheme u))).map
        (fun u => "Invalid URL: " ++ u)

/-- The URL list the manual batch command submits after validation
(src/commands/batch.js lines 34-37): the scheme is prepended before the
Boolean filter runs, so the filter never drops a blank piece. -/
def buildBatchUrls (value : String) : List String :=
  ((splitComma value).map (fun u => prependScheme (jsTrim u))).filter (fun s => s != "")

/-- The comma-separated input that defeats the batch size validation:
one real URL followed by eleven blank pieces. -/
def batchOverflowInput : String := "a.com,,,,,,,,,,,"

/-- C8: the batch input of one URL and eleven blank pieces passes
validation, because validation counts trimmed non-blank pieces, yet the
submitted list has twelve entries, because the https scheme is
prepended before blanks are filtered; so a batchVerify call with more
than ten URLs is reachable from the manual batch command. -/
theorem batch_overflow (urlValid : String → Bool)
    (h : urlValid "https://a.com" = true) :
    validateBatchInput urlValid batchOverflowInput = none ∧
    (buildBatchUrls batchOverflowInput).length = 12 := by
  constructor
  · have hval : validateBatchInput urlValid batchOverflowInput
        = (List.find? (fun u => !(urlValid (prependScheme u))) ["a.com"]).map
            (fun u => "Invalid URL: " ++ u) := rfl
    have hp : prependScheme "a.com" = "https://a.com" := by decide
    rw [hval]
    simp [List.find?, hp, h]
  · decide

/-- Witness for C8 with a URL parser that accepts the normalized URL. -/
theorem batch_overflow_witness :
    (fun _ : String => true) "https://a.com" = true ∧
    (buildBatchUrls batchOverflowInput).length = 12 :=
  ⟨rfl, (batch_overflow (fun _ => true) rfl).2⟩

/-- The response of the key validation endpoint as consumed by the
sidebar: the valid flag, the server error text and the user payload. -/
structure ValidationResult where
  valid : Bool
  error : Option String
  user : Option String
  deriving DecidableEq, Repr

/-- The apiKeySet message that _handleSetApiKey posts back. -/
structure SetKeyMsg where
  success : Bool
  error : Option String
  deriving DecidableEq, Repr

/-- _handleSetApiKey (sidebarProvider.js lines 92-135) with the
validation outcome passed explicitly: the candidate key is validated
first; only a valid outcome stores it; an invalid envelope throws the
server error text, and any thrown error is caught and reported as a
failed apiKeySet message.  Returns the stored key after the call and
the posted message. -/
def handleSetApiKey (stored : Option String) (apiKey : String)
    (validation : Except String ValidationResult) : Option String × SetKeyMsg :=
  match validation with
  | Except.error e => (stored, { success := false, error := some e })
  | Except.ok result =>
      if result.valid then (some apiKey, { success := true, error := none })
      else (stored, { success := false, error := some (result.error.getD "Invalid API key") })

/-- Whether a validation outcome reports a valid key. -/
def validOutcome : Except String ValidationResult → Bool
  | Except.ok r => r.valid
  | Except.error _ => false

/-- C9: setting a key from the sidebar is atomic for the stored
credential: the stored key becomes the candidate exactly when
validation reports valid; on an invalid envelope or a thrown validation
error it is left unchanged; and the posted message reports success
exactly in the valid case. -/
theorem handleSetApiKey_atomic (stored : Option String) (apiKey : String)
    (validation : Except String ValidationResult) :
    (handleSetApiKey stored apiKey validation).1 =
      (if validOutcome validation then some apiKey else stored) ∧
    (handleSetApiKey stored apiKey validation).2.success = validOutcome validation := by
  cases validation with
  | ok r => cases hr : r.valid <;> simp [handleSetApiKey, validOutcome, hr]
  | error e => simp [handleSetApiKey, validOutcome]

/-- The apiKeyStatus message that _checkApiKey posts. -/
structure KeyStatusMsg where
  hasKey : Bool
  withUser : Bool
  deriving DecidableEq, Repr

/-- _checkApiKey (sidebarProvider.js lines 65-90) with the validation
outcome passed explicitly.  With no stored key it reports not
connected; with a stored key it validates: a valid envelope reports
connected with the user attached, an invalid envelope clears the key
and reports not connected, and a thrown error keeps the key and
reports connected from local presence. -/
def checkApiKey (stored : Option String)
    (validation : Except String ValidationResult) : Option String × KeyStatusMsg :=
  match stored with
  | none => (none, { hasKey := false, withUser := false })
  | some key =>
      match validation with
      | Except.ok result =>
          if result.valid then (some key, { hasKey := true, withUser := true })
          else (none, { hasKey := false, withUser := false })
      | Except.error _ => (some key, { hasKey := true, withUser := false })

/-- Whether a validation outcome is an envelope that reports the key
invalid, as opposed to valid or to a thrown error. -/
def invalidOutcome : Except String ValidationResult → Bool
  | Except.ok r => !r.valid
  | Except.error _ => false

/-- C10: with a stored key, the startup check clears it exactly when the
server envelope reports it invalid; on a valid envelope, or on a thrown
validation error, the key is kept, and the reported status is connected
in exactly the kept cases. -/
theorem checkApiKey_clear_iff_invalid (key : String)
    (validation : Except String ValidationResult) :
    (checkApiKey (some key) validation).1 =
      (if invalidOutcome validation then none else some key) ∧
    (checkApiKey (some key) validation).2.hasKey = !(invalidOutcome validation) := by
  cases validation with
  | ok r => cases hr : r.valid <;> simp [checkApiKey, invalidOutcome, hr]
  | error e => simp [checkApiKey, invalidOutcome]

end UpRock
